import Mathlib

/-!
Shallow embedding of the resilient outbound request client of
Pekno/simple-discordbot: the circuit breaker (src/utils/CircuitBreaker.ts),
the retry executor, the request queue / scheduler and the disposal logic
(MainApi.ts).  Timestamps (`Date.now()`) are modelled as a `Nat` argument
`now` passed to every operation that reads the clock.  JavaScript numeric
subtraction `now - t` only ever feeds the comparisons `> resetTimeout` and
`< 1000`; for monotone clocks truncated `Nat` subtraction agrees with the
JavaScript comparison in both branches, so `Nat` arithmetic is used.
-/

namespace SimpleDiscordBot

/-- The `CircuitState` enum of src/utils/CircuitBreaker.ts. -/
inductive CircuitState : Type where
  | CLOSED : CircuitState
  | OPEN : CircuitState
  | HALF_OPEN : CircuitState
deriving DecidableEq, Repr

/-- The mutable fields and config of the `CircuitBreaker` class:
`failures`, `lastFailureTime`, `state`, `threshold`, `resetTimeout`,
`halfOpenAttemptTime` (all timestamps in ms). -/
structure CircuitBreaker : Type where
  failures : Nat
  lastFailureTime : Nat
  state : CircuitState
  threshold : Nat
  resetTimeout : Nat
  halfOpenAttemptTime : Nat
deriving DecidableEq, Repr

namespace CircuitBreaker

/-- State produced by the constructor `new CircuitBreaker(threshold, resetTimeout)`:
failures = 0, lastFailureTime = 0, state = CLOSED, halfOpenAttemptTime = 0. -/
def mk0 (threshold resetTimeout : Nat) : CircuitBreaker :=
  { failures := 0
    lastFailureTime := 0
    state := CircuitState.CLOSED
    threshold := threshold
    resetTimeout := resetTimeout
    halfOpenAttemptTime := 0 }

/-- Method `updateState()` (CircuitBreaker.ts lines 84-99): OPEN → HALF_OPEN once
`Date.now() - lastFailureTime > resetTimeout`, else CLOSED → OPEN once
`failures >= threshold`; otherwise no change. -/
def updateState (now : Nat) (cb : CircuitBreaker) : CircuitBreaker :=
  if cb.state = CircuitState.OPEN ∧ now - cb.lastFailureTime > cb.resetTimeout then
    { cb with state := CircuitState.HALF_OPEN }
  else if cb.state = CircuitState.CLOSED ∧ cb.failures ≥ cb.threshold then
    { cb with state := CircuitState.OPEN }
  else
    cb

/-- Method `getState()`: runs `updateState()` then returns the (updated breaker,
current state) pair. -/
def getState (now : Nat) (cb : CircuitBreaker) : CircuitBreaker × CircuitState :=
  let cb := updateState now cb
  (cb, cb.state)

/-- Method `isOpen()` (CircuitBreaker.ts lines 63-79): update state; in HALF_OPEN
block (return true) when `Date.now() - halfOpenAttemptTime < 1000`, else
record the probe timestamp and admit (return false); otherwise answer
whether the state is OPEN.  Returns the updated breaker and the boolean. -/
def isOpen (now : Nat) (cb : CircuitBreaker) : CircuitBreaker × Bool :=
  let cb := updateState now cb
  if cb.state = CircuitState.HALF_OPEN then
    if now - cb.halfOpenAttemptTime < 1000 then
      (cb, true)
    else
      ({ cb with halfOpenAttemptTime := now }, false)
  else
    (cb, decide (cb.state = CircuitState.OPEN))

/-- Method `recordSuccess()` (CircuitBreaker.ts lines 105-115): HALF_OPEN closes the
circuit and resets failures; CLOSED resets failures; OPEN is unchanged. -/
def recordSuccess (cb : CircuitBreaker) : CircuitBreaker :=
  if cb.state = CircuitState.HALF_OPEN then
    { cb with state := CircuitState.CLOSED, failures := 0 }
  else if cb.state = CircuitState.CLOSED then
    { cb with failures := 0 }
  else
    cb

/-- Method `recordFailure()` (CircuitBreaker.ts lines 121-135): always stamps
`lastFailureTime = Date.now()`; HALF_OPEN reopens the circuit; CLOSED
increments `failures` and opens once the threshold is reached; OPEN keeps
everything else unchanged. -/
def recordFailure (now : Nat) (cb : CircuitBreaker) : CircuitBreaker :=
  let cb := { cb with lastFailureTime := now }
  if cb.state = CircuitState.HALF_OPEN then
    { cb with state := CircuitState.OPEN }
  else if cb.state = CircuitState.CLOSED then
    let cb := { cb with failures := cb.failures + 1 }
    if cb.failures ≥ cb.threshold then
      { cb with state := CircuitState.OPEN }
    else
      cb
  else
    cb

end CircuitBreaker

/-- A transport error as the retry executor sees it: `error.response?.status`
is the optional HTTP status code. -/
structure Err : Type where
  status : Option Nat
deriving DecidableEq, Repr

/-- Outcome of one invocation of `requestFn()`: resolve with a value or
reject with an error. -/
inductive AttemptResult (T : Type) : Type where
  | ok (value : T) : AttemptResult T
  | err (e : Err) : AttemptResult T
deriving DecidableEq, Repr

/-- What `retryableRequest` can throw: a propagated transport error, or the
fallback `Error('Unknown error during retry')`. -/
inductive RetryError : Type where
  | transport (e : Err) : RetryError
  | unknownError : RetryError
deriving DecidableEq, Repr

/-- Observable outcome of one `retryableRequest` run: the settled result,
how many times `requestFn` was invoked, the backoff sleeps in order, the
final breaker, and how many times `recordFailure` was called. -/
structure RetryOutcome (T : Type) : Type where
  result : Except RetryError T
  attempts : Nat
  sleeps : List Nat
  breaker : CircuitBreaker
  rfCount : Nat
deriving Repr

/-- The guard `error.response?.status && nonRetryableCodes.includes(status)`
of MainApi (part_000 lines 111-114).  A status of `0` is falsy in
JavaScript, so it never passes the guard. -/
def isNonRetryableStatus (codes : List Nat) (e : Err) : Bool :=
  match e.status with
  | some s => s != 0 && codes.contains s
  | none => false

/-- The jitter expression `Math.random() * 0.3 + 0.85` (part_000 line 129),
applied to one sample `rand ∈ [0,1)` of `Math.random()`. -/
def jitterOf (rand : ℚ) : ℚ :=
  rand * (3 / 10) + 17 / 20

/-- The backoff `Math.floor(delay * Math.pow(2, attempt) * jitter)`
(part_000 line 130). -/
def waitTime (delay attempt : Nat) (j : ℚ) : Nat :=
  (⌊(delay : ℚ) * 2 ^ attempt * j⌋).toNat

/-- The `for (let attempt = 0; attempt <= maxRetries; attempt++)` loop of
`retryableRequest` (part_000 lines 101-138), with `fuel` the number of loop
iterations the guard still permits (`maxRetries + 1 - attempt`); exhausted
fuel is the loop guard failing, which falls through to the final
`recordFailure(); throw lastError` path.  `outcomes i` is what the i-th
invocation of `requestFn()` does, `rand i` the i-th `Math.random()` sample,
and `now` advances by each sleep. -/
def retryLoop {T : Type} (codes : List Nat) (delay maxRetries : Nat)
    (outcomes : Nat → AttemptResult T) (rand : Nat → ℚ) :
    Nat → Nat → Nat → CircuitBreaker → Option Err → RetryOutcome T
  | 0, attempt, now, cb, lastError =>
      { result := Except.error (match lastError with
          | some e => RetryError.transport e
          | none => RetryError.unknownError)
        attempts := attempt
        sleeps := []
        breaker := CircuitBreaker.recordFailure now cb
        rfCount := 1 }
  | fuel + 1, attempt, now, cb, _ =>
      match outcomes attempt with
      | AttemptResult.ok v =>
          { result := Except.ok v
            attempts := attempt + 1
            sleeps := []
            breaker := CircuitBreaker.recordSuccess cb
            rfCount := 0 }
      | AttemptResult.err e =>
          if isNonRetryableStatus codes e then
            { result := Except.error (RetryError.transport e)
              attempts := attempt + 1
              sleeps := []
              breaker := CircuitBreaker.recordFailure now cb
              rfCount := 1 }
          else if attempt = maxRetries then
            { result := Except.error (RetryError.transport e)
              attempts := attempt + 1
              sleeps := []
              breaker := CircuitBreaker.recordFailure now cb
              rfCount := 1 }
          else
            let w := waitTime delay attempt (jitterOf (rand attempt))
            let r := retryLoop codes delay maxRetries outcomes rand
              fuel (attempt + 1) (now + w) cb (some e)
            { r with sleeps := w :: r.sleeps }

/-- Method `retryableRequest` of MainApi (part_000 lines 89-139).  Faithful to the
source: when `circuitBreaker.isOpen()` answers true, the code calls
`getState()` and constructs an Error value but never throws it, so
execution falls through into the retry loop in every case. -/
def retryableRequest {T : Type} (codes : List Nat)
    (outcomes : Nat → AttemptResult T) (rand : Nat → ℚ)
    (cb : CircuitBreaker) (now : Nat)
    (maxRetries delay : Nat) : RetryOutcome T :=
  let checked := CircuitBreaker.isOpen now cb
  let cb := if checked.2 then (CircuitBreaker.getState now checked.1).1 else checked.1
  retryLoop codes delay maxRetries outcomes rand (maxRetries + 1) 0 now cb none

/-- A queued descriptor (src/model/ApiRequest.ts): the encoded url plus the
`resolve`/`reject` callback pair of the pending promise, identified here by
`reqId`; the opaque `options` payload is carried as an uninterpreted string. -/
structure ApiRequest : Type where
  url : String
  options : Option String
  reqId : Nat
deriving DecidableEq, Repr

/-- Mutable state of a `MainApi` instance (part_000): the FIFO `queue`, the
rate-limit config and window counter, whether each of the two interval
timers is running, and — for reasoning about disposal — the list `inflight`
of requests already handed to the transport by `processQueue`. -/
structure MainApiState : Type where
  queue : List ApiRequest
  maxRequestsPerMinute : Int
  currentRequestCount : Int
  queueTimerOn : Bool
  resetTimerOn : Bool
  inflight : List ApiRequest
deriving DecidableEq, Repr

/-- Method `call()` (part_000 lines 210-216): push the descriptor onto the
tail of the queue (URL percent-encoding is performed before the push and is
orthogonal to queue behaviour, so `r.url` stands for the encoded url). -/
def call (s : MainApiState) (r : ApiRequest) : MainApiState :=
  { s with queue := s.queue ++ [r] }

/-- Method `processQueue()` (part_000 lines 223-275): return without
dispatching when the queue is empty or a bounded rate budget is exhausted;
otherwise `shift()` the head, increment the window counter and hand the
request to the transport.  Returns the new state and the dispatched
request, if any. -/
def processQueue (s : MainApiState) : MainApiState × Option ApiRequest :=
  if s.queue.length = 0 ∨
      (s.maxRequestsPerMinute ≠ -1 ∧ s.currentRequestCount ≥ s.maxRequestsPerMinute) then
    (s, none)
  else
    match s.queue with
    | [] => (s, none)
    | r :: rest =>
        ({ s with
            queue := rest
            currentRequestCount := s.currentRequestCount + 1
            inflight := s.inflight ++ [r] }, some r)

/-- One firing of the dispatch timer installed by `startProcessing()`
(part_000 lines 283-292): the callback runs `processQueue()` once inside a
try/catch whose handler only logs. -/
def queueTick (s : MainApiState) : MainApiState × Option ApiRequest :=
  processQueue s

/-- One firing of the window-reset timer (part_000 lines 295-297): reset the
window counter to 0. -/
def resetTick (s : MainApiState) : MainApiState :=
  { s with currentRequestCount := 0 }

/-- Method `stopProcessing()` (part_000 lines 304-316): clear both interval
timers. -/
def stopProcessing (s : MainApiState) : MainApiState :=
  { s with queueTimerOn := false, resetTimerOn := false }

/-- The `while (queue.length > 0) { shift(); reject(new Error('API instance
disposed')) }` drain loop of `dispose()` (part_000 lines 325-330), returning
the rejection events in the order they fire. -/
def drainReject : List ApiRequest → List (ApiRequest × String)
  | [] => []
  | r :: rest => (r, "API instance disposed") :: drainReject rest

/-- Method `dispose()` (part_000 lines 322-333): stop both timers, then
drain the queue rejecting every still-queued request. -/
def dispose (s : MainApiState) : MainApiState × List (ApiRequest × String) :=
  let s1 := stopProcessing s
  ({ s1 with queue := [] }, drainReject s1.queue)

/-- An externally triggered step of the queue subsystem: either a caller
enqueues a request via `call()` or the dispatch timer fires. -/
inductive ApiEvent : Type where
  | enq (r : ApiRequest) : ApiEvent
  | tick : ApiEvent
deriving DecidableEq, Repr

/-- Run a sequence of events against a state, collecting the dispatched
requests in dispatch order. -/
def runEvents : MainApiState → List ApiEvent → MainApiState × List ApiRequest
  | s, [] => (s, [])
  | s, ApiEvent.enq r :: es => runEvents (call s r) es
  | s, ApiEvent.tick :: es =>
      let p := queueTick s
      let rest := runEvents p.1 es
      (rest.1, p.2.toList ++ rest.2)

/-- Requests enqueued by a sequence of events, in order. -/
def enqueuedOf : List ApiEvent → List ApiRequest
  | [] => []
  | ApiEvent.enq r :: es => r :: enqueuedOf es
  | ApiEvent.tick :: es => enqueuedOf es

/-- C4: the circuit breaker realises exactly the 3-state transition relation:
CLOSED → OPEN once `consecutiveFailures` reaches the threshold (both eagerly
in `recordFailure` and lazily in `updateState`), OPEN → HALF_OPEN on a state
query once more than `resetTimeout` ms have elapsed since the last failure,
`recordSuccess` closes a HALF_OPEN circuit and zeroes the failure counter,
`recordFailure` reopens a HALF_OPEN circuit, `recordSuccess` in CLOSED stays
CLOSED and zeroes the counter, `recordSuccess` in OPEN changes nothing, and
no other state transition occurs. -/
theorem circuitBreaker_transition_relation :
    ∀ (cb : CircuitBreaker) (now : Nat),
      (cb.state = CircuitState.CLOSED → cb.failures ≥ cb.threshold →
        (CircuitBreaker.updateState now cb).state = CircuitState.OPEN) ∧
      (cb.state = CircuitState.OPEN → now - cb.lastFailureTime > cb.resetTimeout →
        (CircuitBreaker.updateState now cb).state = CircuitState.HALF_OPEN) ∧
      (cb.state = CircuitState.HALF_OPEN →
        (CircuitBreaker.recordSuccess cb).state = CircuitState.CLOSED ∧
        (CircuitBreaker.recordSuccess cb).failures = 0) ∧
      (cb.state = CircuitState.HALF_OPEN →
        (CircuitBreaker.recordFailure now cb).state = CircuitState.OPEN) ∧
      (cb.state = CircuitState.CLOSED →
        (CircuitBreaker.recordSuccess cb).state = CircuitState.CLOSED ∧
        (CircuitBreaker.recordSuccess cb).failures = 0) ∧
      (cb.state = CircuitState.OPEN → CircuitBreaker.recordSuccess cb = cb) ∧
      ((CircuitBreaker.updateState now cb).state ≠ cb.state →
        (cb.state = CircuitState.CLOSED ∧ cb.failures ≥ cb.threshold ∧
          (CircuitBreaker.updateState now cb).state = CircuitState.OPEN) ∨
        (cb.state = CircuitState.OPEN ∧ now - cb.lastFailureTime > cb.resetTimeout ∧
          (CircuitBreaker.updateState now cb).state = CircuitState.HALF_OPEN)) ∧
      (cb.state = CircuitState.CLOSED →
        (CircuitBreaker.recordFailure now cb).failures = cb.failures + 1 ∧
        (CircuitBreaker.recordFailure now cb).state =
          (if cb.failures + 1 ≥ cb.threshold then CircuitState.OPEN
            else CircuitState.CLOSED)) ∧
      (cb.state = CircuitState.OPEN →
        (CircuitBreaker.recordFailure now cb).state = CircuitState.OPEN ∧
        (CircuitBreaker.recordFailure now cb).failures = cb.failures) := by
  intro cb now
  rcases cb with ⟨f, lt, st, th, rt, ht⟩
  cases st <;>
    simp [CircuitBreaker.updateState, CircuitBreaker.recordSuccess,
      CircuitBreaker.recordFailure] <;>
    split_ifs <;> simp_all <;> omega

/-- Witness for C4: a breaker that is CLOSED with 5 of 5 threshold failures
moves to OPEN on a state update. -/
theorem circuitBreaker_transition_relation_witness :
    (CircuitBreaker.updateState 0
      { failures := 5, lastFailureTime := 0, state := CircuitState.CLOSED,
        threshold := 5, resetTimeout := 60000,
        halfOpenAttemptTime := 0 }).state = CircuitState.OPEN :=
  (circuitBreaker_transition_relation
    { failures := 5, lastFailureTime := 0, state := CircuitState.CLOSED,
      threshold := 5, resetTimeout := 60000, halfOpenAttemptTime := 0 } 0).1
    rfl (by decide)

/-- C5: while HALF_OPEN, `isOpen()` admits at most one probe per rolling
1000 ms window: a query within 1000 ms of the last admitted probe is blocked
and leaves the breaker unchanged, a later query records the probe timestamp
and admits, and two consecutively admitted probes are at least 1000 ms
apart. -/
theorem halfOpen_probe_rate_limit :
    ∀ (cb : CircuitBreaker) (now : Nat), cb.state = CircuitState.HALF_OPEN →
      (now - cb.halfOpenAttemptTime < 1000 →
        CircuitBreaker.isOpen now cb = (cb, true)) ∧
      (¬ now - cb.halfOpenAttemptTime < 1000 →
        CircuitBreaker.isOpen now cb =
          ({ cb with halfOpenAttemptTime := now }, false)) ∧
      (∀ now2 : Nat,
        (CircuitBreaker.isOpen now cb).2 = false →
        (CircuitBreaker.isOpen now2 (CircuitBreaker.isOpen now cb).1).2 = false →
        now2 - now ≥ 1000) := by
  intro cb now hst
  rcases cb with ⟨f, lt, st, th, rt, ht⟩
  simp only at hst
  subst hst
  refine ⟨?_, ?_, ?_⟩
  · intro h
    simp [CircuitBreaker.isOpen, CircuitBreaker.updateState, h]
  · intro h
    simp [CircuitBreaker.isOpen, CircuitBreaker.updateState, h]
  · intro now2 h1 h2
    by_cases hblock : now - ht < 1000
    · simp [CircuitBreaker.isOpen, CircuitBreaker.updateState, hblock] at h1
    · by_cases hblock2 : now2 - now < 1000
      · simp [CircuitBreaker.isOpen, CircuitBreaker.updateState, hblock,
          hblock2] at h1 h2
      · omega

/-- Example breaker sitting in HALF_OPEN whose last admitted probe was at
t=5000. -/
def cbHalfOpenEx : CircuitBreaker :=
  { failures := 0, lastFailureTime := 0, state := CircuitState.HALF_OPEN,
    threshold := 5, resetTimeout := 60000, halfOpenAttemptTime := 5000 }

/-- Witness for C5: with the last probe admitted at t=5000, a query at
t=5500 is blocked, and one at t=61000 is admitted. -/
theorem halfOpen_probe_rate_limit_witness :
    CircuitBreaker.isOpen 5500 cbHalfOpenEx = (cbHalfOpenEx, true) ∧
    CircuitBreaker.isOpen 61000 cbHalfOpenEx =
      ({ cbHalfOpenEx with halfOpenAttemptTime := 61000 }, false) :=
  ⟨(halfOpen_probe_rate_limit cbHalfOpenEx 5500 rfl).1 (by decide),
    (halfOpen_probe_rate_limit cbHalfOpenEx 61000 rfl).2.1 (by decide)⟩

/-- C10: `recordFailure()` stamps `lastFailureTime` with the current time in
every state; while OPEN it changes nothing else, and therefore keeps the
breaker OPEN on any state query within the reset timeout of the newly
recorded failure. -/
theorem recordFailure_stamps_time_in_every_state :
    ∀ (cb : CircuitBreaker) (now : Nat),
      (CircuitBreaker.recordFailure now cb).lastFailureTime = now ∧
      (cb.state = CircuitState.OPEN →
        CircuitBreaker.recordFailure now cb = { cb with lastFailureTime := now }) ∧
      (cb.state = CircuitState.OPEN → ∀ t : Nat, t - now ≤ cb.resetTimeout →
        (CircuitBreaker.updateState t
          (CircuitBreaker.recordFailure now cb)).state = CircuitState.OPEN) := by
  intro cb now
  rcases cb with ⟨f, lt, st, th, rt, ht⟩
  refine ⟨?_, ?_, ?_⟩
  · cases st <;> simp [CircuitBreaker.recordFailure] <;> split_ifs <;> rfl
  · intro hst
    simp only at hst
    subst hst
    simp [CircuitBreaker.recordFailure]
  · intro hst t ht2
    simp only at hst
    subst hst
    simp only [CircuitBreaker.recordFailure, CircuitBreaker.updateState] at ht2 ⊢
    split_ifs <;> simp_all <;> omega

/-- Example breaker that is OPEN with 5 failures, last failure at t=0. -/
def cbOpenEx : CircuitBreaker :=
  { failures := 5, lastFailureTime := 0, state := CircuitState.OPEN,
    threshold := 5, resetTimeout := 60000, halfOpenAttemptTime := 0 }

/-- Witness for C10: a failure recorded at t=100000 on an OPEN breaker only
restamps the failure time, and the breaker is still OPEN when queried at
t=160000, exactly the reset timeout later. -/
theorem recordFailure_stamps_time_in_every_state_witness :
    CircuitBreaker.recordFailure 100000 cbOpenEx =
      { cbOpenEx with lastFailureTime := 100000 } ∧
    (CircuitBreaker.updateState 160000
      (CircuitBreaker.recordFailure 100000 cbOpenEx)).state =
      CircuitState.OPEN :=
  ⟨(recordFailure_stamps_time_in_every_state cbOpenEx 100000).2.1 rfl,
    (recordFailure_stamps_time_in_every_state cbOpenEx 100000).2.2 rfl
      160000 (by decide)⟩

/-- Dichotomy of one `processQueue()` run: either nothing is dispatched and
the state is untouched, or exactly the head of the queue is dispatched, the
window counter grows by exactly one, and the dispatched request joins the
inflight list. -/
theorem processQueue_spec (s : MainApiState) :
    processQueue s = (s, none) ∨
    ∃ r rest, s.queue = r :: rest ∧
      processQueue s =
        ({ s with
            queue := rest
            currentRequestCount := s.currentRequestCount + 1
            inflight := s.inflight ++ [r] }, some r) := by
  unfold processQueue
  rcases hq : s.queue with _ | ⟨r, rest⟩
  · left
    simp [hq]
  · by_cases hb : s.maxRequestsPerMinute ≠ -1 ∧
      s.currentRequestCount ≥ s.maxRequestsPerMinute
    · left
      simp [hq, hb]
    · right
      refine ⟨r, rest, rfl, ?_⟩
      simp [hq, hb]

/-- C6: `processQueue` dispatches exactly when the queue is non-empty and
the budget allows it (capacity `-1` skips the budget check entirely); a
dispatching run removes the head and increments the window counter, and a
non-dispatching run changes nothing. -/
theorem processQueue_dispatch_iff :
    ∀ s : MainApiState,
      ((processQueue s).2.isSome = true ↔
        s.queue ≠ [] ∧ (s.maxRequestsPerMinute = -1 ∨
          s.currentRequestCount < s.maxRequestsPerMinute)) ∧
      ((processQueue s).2 = none → (processQueue s).1 = s) ∧
      (∀ r : ApiRequest, (processQueue s).2 = some r →
        s.queue.head? = some r ∧
        (processQueue s).1.queue = s.queue.tail ∧
        (processQueue s).1.currentRequestCount = s.currentRequestCount + 1) := by
  intro s
  refine ⟨?_, ?_, ?_⟩
  · unfold processQueue
    rcases hq : s.queue with _ | ⟨r, rest⟩
    · simp [hq]
    · by_cases hb : s.maxRequestsPerMinute ≠ -1 ∧
        s.currentRequestCount ≥ s.maxRequestsPerMinute
      · simp only [hq]
        rw [if_pos (Or.inr hb)]
        simp
        omega
      · simp only [hq]
        rw [if_neg]
        · simp
          omega
        · simp
          omega
  · intro hnone
    rcases processQueue_spec s with h | ⟨r, rest, hq, h⟩
    · rw [h]
    · rw [h] at hnone
      simp at hnone
  · intro r hr
    rcases processQueue_spec s with h | ⟨r2, rest, hq, h⟩
    · rw [h] at hr
      simp at hr
    · rw [h] at hr
      simp at hr
      subst hr
      rw [h, hq]
      simp

/-- Example scheduler state: two queued requests, capacity 2, one request
already counted in the current window. -/
def schedEx : MainApiState :=
  { queue := [{ url := "a", options := none, reqId := 0 },
      { url := "b", options := none, reqId := 1 }]
    maxRequestsPerMinute := 2
    currentRequestCount := 1
    queueTimerOn := true
    resetTimerOn := true
    inflight := [] }

/-- Witness for C6: `schedEx` has one unit of budget left, so a run
dispatches its head and bumps the counter; forward and backward directions
of the iff are both exercised. -/
theorem processQueue_dispatch_iff_witness :
    (processQueue schedEx).2.isSome = true ∧
    schedEx.queue.head? = some { url := "a", options := none, reqId := 0 } ∧
    (processQueue schedEx).1.currentRequestCount = 2 :=
  ⟨(processQueue_dispatch_iff schedEx).1.mpr
      ⟨by decide, Or.inr (by decide)⟩,
    ((processQueue_dispatch_iff schedEx).2.2
      { url := "a", options := none, reqId := 0 } (by decide)).1,
    ((processQueue_dispatch_iff schedEx).2.2
      { url := "a", options := none, reqId := 0 } (by decide)).2.2⟩

/-- C7: one firing of the dispatch timer runs `processQueue()` once, so a
single tick either leaves the state unchanged dispatching nothing, or
removes exactly the head entry and increments the window counter by exactly
one — never more than one dequeue or increment per tick. -/
theorem queueTick_dispatches_at_most_one :
    ∀ s : MainApiState,
      queueTick s = (s, none) ∨
      ∃ r rest, s.queue = r :: rest ∧
        queueTick s =
          ({ s with
              queue := rest
              currentRequestCount := s.currentRequestCount + 1
              inflight := s.inflight ++ [r] }, some r) := by
  intro s
  simpa [queueTick] using processQueue_spec s

/-- C8: `dispose()` leaves the queue empty, rejects every still-queued
request with the disposed-client error in queue order, stops both timers,
and does not touch the requests already handed to the transport. -/
theorem dispose_rejects_all_queued :
    ∀ s : MainApiState,
      (dispose s).1.queue = [] ∧
      (dispose s).2 = s.queue.map (fun r => (r, "API instance disposed")) ∧
      (dispose s).1.queueTimerOn = false ∧
      (dispose s).1.resetTimerOn = false ∧
      (dispose s).1.inflight = s.inflight := by
  have hdrain : ∀ l : List ApiRequest,
      drainReject l = l.map (fun r => (r, "API instance disposed")) := by
    intro l
    induction l with
    | nil => rfl
    | cons r rest ih => simp [drainReject, ih]
  intro s
  refine ⟨rfl, ?_, rfl, rfl, rfl⟩
  simp [dispose, stopProcessing, hdrain]

/-- C9: `call()` appends to the tail, a dispatching `processQueue()` removes
the head, and hence over any event sequence the initial queue followed by
the enqueued requests equals the dispatched requests followed by the final
queue — first-attempt dispatches happen in strict FIFO enqueue order with
no reordering. -/
theorem fifo_dispatch_order :
    ∀ (s : MainApiState) (es : List ApiEvent),
      (∀ (t : MainApiState) (r : ApiRequest), (call t r).queue = t.queue ++ [r]) ∧
      (∀ (t : MainApiState) (r : ApiRequest), (processQueue t).2 = some r →
        t.queue.head? = some r ∧ (processQueue t).1.queue = t.queue.tail) ∧
      s.queue ++ enqueuedOf es = (runEvents s es).2 ++ (runEvents s es).1.queue := by
  have hmain : ∀ (es : List ApiEvent) (s : MainApiState),
      s.queue ++ enqueuedOf es = (runEvents s es).2 ++ (runEvents s es).1.queue := by
    intro es
    induction es with
    | nil =>
      intro s
      simp [runEvents, enqueuedOf]
    | cons e es ih =>
      intro s
      cases e with
      | enq r =>
        have h := ih (call s r)
        simp only [runEvents, enqueuedOf]
        rw [← h]
        simp [call]
      | tick =>
        rcases processQueue_spec s with h | ⟨r, rest, hq, h⟩
        · have hih := ih s
          simp only [runEvents, enqueuedOf, queueTick, h]
          simpa using hih
        · have hih := ih ({ s with
            queue := rest
            currentRequestCount := s.currentRequestCount + 1
            inflight := s.inflight ++ [r] })
          simp only [runEvents, enqueuedOf, queueTick, h]
          simp only at hih
          simp [hq, ← hih]
  intro s es
  refine ⟨fun t r => rfl, ?_, hmain es s⟩
  intro t r hr
  rcases processQueue_spec t with h | ⟨r2, rest, hq, h⟩
  · rw [h] at hr
    simp at hr
  · rw [h] at hr
    simp at hr
    subst hr
    rw [h, hq]
    simp

/-- Witness for C9: on the concrete state `schedEx`, whose head is request
"a", a dispatching `processQueue()` run removes exactly that head. -/
theorem fifo_dispatch_order_witness :
    schedEx.queue.head? = some { url := "a", options := none, reqId := 0 } ∧
    (processQueue schedEx).1.queue = schedEx.queue.tail :=
  (fifo_dispatch_order schedEx []).2.1 schedEx
    { url := "a", options := none, reqId := 0 } (by decide)

/-- Lower bound on a floored backoff delay. -/
theorem le_waitTime (lo delay attempt : Nat) (j : ℚ)
    (h : (lo : ℚ) ≤ (delay : ℚ) * 2 ^ attempt * j) :
    lo ≤ waitTime delay attempt j := by
  have h2 : (lo : ℤ) ≤ ⌊(delay : ℚ) * 2 ^ attempt * j⌋ := by
    rw [Int.le_floor]
    exact_mod_cast h
  unfold waitTime
  omega

/-- Upper bound on a floored backoff delay. -/
theorem waitTime_le (hi delay attempt : Nat) (j : ℚ)
    (h : (delay : ℚ) * 2 ^ attempt * j ≤ (hi : ℚ)) :
    waitTime delay attempt j ≤ hi := by
  have h2 : ⌊(delay : ℚ) * 2 ^ attempt * j⌋ ≤ (hi : ℤ) := by
    have h3 := Int.floor_le_floor h
    rwa [Int.floor_natCast] at h3
  unfold waitTime
  omega

/-- C2: a persistently failing retryable call under the default policy
(maxRetries 3, base delay 1000 ms, non-retryable set {404, 403}) invokes
`requestFn` exactly 4 times, sleeps exactly three times between consecutive
attempts for `floor(1000 * 2^attempt * jitter)` ms — within [850, 1150],
[1700, 2300] and [3400, 4600] when each jitter sample comes from
`Math.random() ∈ [0,1)` — does not sleep after the final attempt, records
exactly one breaker failure, and rethrows the last observed error. -/
theorem retry_budget_four_attempts {T : Type}
    (outcomes : Nat → AttemptResult T) (rand : Nat → ℚ) (e : Nat → Err)
    (cb : CircuitBreaker) (now : Nat)
    (hout : ∀ i, outcomes i = AttemptResult.err (e i))
    (hretry : ∀ i, isNonRetryableStatus [404, 403] (e i) = false)
    (hrand : ∀ i, 0 ≤ rand i ∧ rand i < 1) :
    (retryableRequest [404, 403] outcomes rand cb now 3 1000).attempts = 4 ∧
    (retryableRequest [404, 403] outcomes rand cb now 3 1000).sleeps =
      [waitTime 1000 0 (jitterOf (rand 0)), waitTime 1000 1 (jitterOf (rand 1)),
        waitTime 1000 2 (jitterOf (rand 2))] ∧
    (850 ≤ waitTime 1000 0 (jitterOf (rand 0)) ∧
      waitTime 1000 0 (jitterOf (rand 0)) ≤ 1150) ∧
    (1700 ≤ waitTime 1000 1 (jitterOf (rand 1)) ∧
      waitTime 1000 1 (jitterOf (rand 1)) ≤ 2300) ∧
    (3400 ≤ waitTime 1000 2 (jitterOf (rand 2)) ∧
      waitTime 1000 2 (jitterOf (rand 2)) ≤ 4600) ∧
    (retryableRequest [404, 403] outcomes rand cb now 3 1000).rfCount = 1 ∧
    (retryableRequest [404, 403] outcomes rand cb now 3 1000).result =
      Except.error (RetryError.transport (e 3)) := by
  obtain ⟨h00, h01⟩ := hrand 0
  obtain ⟨h10, h11⟩ := hrand 1
  obtain ⟨h20, h21⟩ := hrand 2
  refine ⟨?_, ?_, ⟨?_, ?_⟩, ⟨?_, ?_⟩, ⟨?_, ?_⟩, ?_, ?_⟩
  · simp [retryableRequest, retryLoop, hout, hretry]
  · simp [retryableRequest, retryLoop, hout, hretry]
  · exact le_waitTime 850 1000 0 _ (by unfold jitterOf; nlinarith)
  · exact waitTime_le 1150 1000 0 _ (by unfold jitterOf; nlinarith)
  · exact le_waitTime 1700 1000 1 _ (by unfold jitterOf; nlinarith)
  · exact waitTime_le 2300 1000 1 _ (by unfold jitterOf; nlinarith)
  · exact le_waitTime 3400 1000 2 _ (by unfold jitterOf; nlinarith)
  · exact waitTime_le 4600 1000 2 _ (by unfold jitterOf; nlinarith)
  · simp [retryableRequest, retryLoop, hout, hretry]
  · simp [retryableRequest, retryLoop, hout, hretry]

/-- Witness for C2: every attempt rejects with status 500 and every
`Math.random()` sample is 1/2 (jitter exactly 1), from a fresh breaker at
t=0. -/
theorem retry_budget_four_attempts_witness :
    (retryableRequest [404, 403]
      (fun _ => AttemptResult.err { status := some 500 } : Nat → AttemptResult Nat)
      (fun _ => 1 / 2) (CircuitBreaker.mk0 5 60000) 0 3 1000).attempts = 4 ∧
    (retryableRequest [404, 403]
      (fun _ => AttemptResult.err { status := some 500 } : Nat → AttemptResult Nat)
      (fun _ => 1 / 2) (CircuitBreaker.mk0 5 60000) 0 3 1000).sleeps =
      [waitTime 1000 0 (jitterOf (1 / 2)), waitTime 1000 1 (jitterOf (1 / 2)),
        waitTime 1000 2 (jitterOf (1 / 2))] ∧
    (850 ≤ waitTime 1000 0 (jitterOf (1 / 2)) ∧
      waitTime 1000 0 (jitterOf (1 / 2)) ≤ 1150) ∧
    (1700 ≤ waitTime 1000 1 (jitterOf (1 / 2)) ∧
      waitTime 1000 1 (jitterOf (1 / 2)) ≤ 2300) ∧
    (3400 ≤ waitTime 1000 2 (jitterOf (1 / 2)) ∧
      waitTime 1000 2 (jitterOf (1 / 2)) ≤ 4600) ∧
    (retryableRequest [404, 403]
      (fun _ => AttemptResult.err { status := some 500 } : Nat → AttemptResult Nat)
      (fun _ => 1 / 2) (CircuitBreaker.mk0 5 60000) 0 3 1000).rfCount = 1 ∧
    (retryableRequest [404, 403]
      (fun _ => AttemptResult.err { status := some 500 } : Nat → AttemptResult Nat)
      (fun _ => 1 / 2) (CircuitBreaker.mk0 5 60000) 0 3 1000).result =
      Except.error (RetryError.transport { status := some 500 }) :=
  retry_budget_four_attempts
    (fun _ => AttemptResult.err { status := some 500 })
    (fun _ => 1 / 2) (fun _ => { status := some 500 })
    (CircuitBreaker.mk0 5 60000) 0
    (fun _ => rfl) (fun _ => rfl) (fun _ => ⟨by norm_num, by norm_num⟩)

/-- C3: a first attempt rejecting with a status in the non-retryable set
{404, 403} makes exactly one transport attempt, never sleeps, records
exactly one breaker failure — incrementing `failures` by one on a CLOSED
breaker — and rethrows that error immediately. -/
theorem nonretryable_single_attempt {T : Type}
    (outcomes : Nat → AttemptResult T) (rand : Nat → ℚ) (e : Err) (s : Nat)
    (cb : CircuitBreaker) (now : Nat)
    (hout : outcomes 0 = AttemptResult.err e)
    (hstatus : e.status = some s)
    (hmem : s = 404 ∨ s = 403)
    (hclosed : cb.state = CircuitState.CLOSED)
    (hunder : cb.failures < cb.threshold) :
    (retryableRequest [404, 403] outcomes rand cb now 3 1000).attempts = 1 ∧
    (retryableRequest [404, 403] outcomes rand cb now 3 1000).sleeps = [] ∧
    (retryableRequest [404, 403] outcomes rand cb now 3 1000).rfCount = 1 ∧
    (retryableRequest [404, 403] outcomes rand cb now 3 1000).result =
      Except.error (RetryError.transport e) ∧
    (retryableRequest [404, 403] outcomes rand cb now 3 1000).breaker.failures =
      cb.failures + 1 := by
  have hnr : isNonRetryableStatus [404, 403] e = true := by
    rcases hmem with rfl | rfl <;> simp [isNonRetryableStatus, hstatus]
  have hnotge : ¬ cb.threshold ≤ cb.failures := by omega
  refine ⟨?_, ?_, ?_, ?_, ?_⟩ <;>
    simp [retryableRequest, retryLoop, CircuitBreaker.isOpen,
      CircuitBreaker.updateState, hclosed, hnotge, hout, hnr,
      CircuitBreaker.recordFailure] <;>
    split_ifs <;> simp

/-- Witness for C3: a fresh breaker and a first attempt rejecting with
status 404. -/
theorem nonretryable_single_attempt_witness :
    (retryableRequest [404, 403]
      (fun _ => AttemptResult.err { status := some 404 } : Nat → AttemptResult Nat)
      (fun _ => 0) (CircuitBreaker.mk0 5 60000) 0 3 1000).attempts = 1 ∧
    (retryableRequest [404, 403]
      (fun _ => AttemptResult.err { status := some 404 } : Nat → AttemptResult Nat)
      (fun _ => 0) (CircuitBreaker.mk0 5 60000) 0 3 1000).sleeps = [] ∧
    (retryableRequest [404, 403]
      (fun _ => AttemptResult.err { status := some 404 } : Nat → AttemptResult Nat)
      (fun _ => 0) (CircuitBreaker.mk0 5 60000) 0 3 1000).rfCount = 1 ∧
    (retryableRequest [404, 403]
      (fun _ => AttemptResult.err { status := some 404 } : Nat → AttemptResult Nat)
      (fun _ => 0) (CircuitBreaker.mk0 5 60000) 0 3 1000).result =
      Except.error (RetryError.transport { status := some 404 }) ∧
    (retryableRequest [404, 403]
      (fun _ => AttemptResult.err { status := some 404 } : Nat → AttemptResult Nat)
      (fun _ => 0) (CircuitBreaker.mk0 5 60000) 0 3 1000).breaker.failures =
      (CircuitBreaker.mk0 5 60000).failures + 1 :=
  nonretryable_single_attempt
    (fun _ => AttemptResult.err { status := some 404 })
    (fun _ => 0) { status := some 404 } 404
    (CircuitBreaker.mk0 5 60000) 0
    rfl rfl (Or.inl rfl) rfl (by decide)

/-- Example breaker that is OPEN with a failure freshly recorded at
t=100000, so the reset timeout has not elapsed at t=100000. -/
def cbOpenRecent : CircuitBreaker :=
  { failures := 5, lastFailureTime := 100000, state := CircuitState.OPEN,
    threshold := 5, resetTimeout := 60000, halfOpenAttemptTime := 0 }

/-- C1 (counterevidence): at t=100000 the breaker `cbOpenRecent` reports
open via `isOpen()`, yet `retryableRequest` still invokes `requestFn` —
attempts is 1, not 0 — and resolves with its value instead of failing with
a circuit-open error: part_000 line 98 constructs the circuit-open Error
but never throws it. -/
theorem circuit_open_fastfail_missing :
    (CircuitBreaker.isOpen 100000 cbOpenRecent).2 = true ∧
    (retryableRequest [404, 403]
      (fun _ => AttemptResult.ok 7 : Nat → AttemptResult Nat)
      (fun _ => 0) cbOpenRecent 100000 3 1000).attempts = 1 ∧
    (retryableRequest [404, 403]
      (fun _ => AttemptResult.ok 7 : Nat → AttemptResult Nat)
      (fun _ => 0) cbOpenRecent 100000 3 1000).result = Except.ok 7 :=
  ⟨rfl, rfl, rfl⟩

end SimpleDiscordBot
